import Mathlib

/-!
Verification of the sparse dtype descriptor (pandas/core/arrays/sparse/dtype.py)
and the frozen sequence container (pandas/core/indexes/frozen.py).

Python scalars that can serve as fill values are modelled by `Scalar`
(finite floats as rationals, the float NaN, ints, bools, and the
datetime-like missing sentinel NaT).  Numpy dtypes that can serve as the
subtype of a SparseDtype are modelled by `NpDtype`.  External pandas
helpers that live outside the two source files (isna, na_value_for_dtype,
pandas_dtype, astype_nansafe, the ExtensionDtype structural hash) are
modelled from the spec and carry doc comments saying so.
-/

/-- The closed set of error kinds named by the spec (section 7).  The source
raises TypeError or ValueError with distinguishing messages; each raise site
is mapped to the spec tag that describes it. -/
inductive PdError
  | invalidFillValue
  | parseError
  | unsupportedFillValue
  | incompatibleFillValue
  | immutableContainer
deriving DecidableEq, Repr

deriving instance DecidableEq for Except

/-- A Python scalar usable as a SparseDtype fill value: a finite float
(modelled as a rational), the float nan, an int, a bool, or the
datetime-like missing sentinel NaT. -/
inductive Scalar
  | float (q : ℚ)
  | nan
  | int (n : ℤ)
  | bool (b : Bool)
  | NaT
deriving DecidableEq, Repr

/-- The Python runtime type of a scalar, as used by type(x) and isinstance. -/
inductive PyType
  | float
  | int
  | bool
  | natType
deriving DecidableEq, Repr

/-- type(x) for a scalar: nan is a float, NaT has its own NaTType. -/
def Scalar.pytype : Scalar → PyType
  | .float _ => .float
  | .nan => .float
  | .int _ => .int
  | .bool _ => .bool
  | .NaT => .natType

/-- isinstance(x, t) for a scalar against a scalar type.  In Python, bool is
a subclass of int; no other subclass relation holds between these types. -/
def isinstance (x : Scalar) (t : PyType) : Bool :=
  x.pytype == t || (x.pytype == PyType.bool && t == PyType.int)

/-- Modelled from the spec: the external missing-value detection (isna).
A scalar is missing exactly when it is the float nan or the NaT sentinel. -/
def isna : Scalar → Bool
  | .nan => true
  | .NaT => true
  | _ => false

/-- Python == on scalars: nan and NaT never compare equal to anything
(including themselves); numbers compare by value across the float, int and
bool kinds (True == 1, 0 == 0.0, and so on). -/
def pyEq : Scalar → Scalar → Bool
  | .nan, _ => false
  | _, .nan => false
  | .NaT, _ => false
  | _, .NaT => false
  | .float p, .float q => p == q
  | .float p, .int n => p == (n : ℚ)
  | .float p, .bool b => p == (if b then (1 : ℚ) else 0)
  | .int m, .float q => (m : ℚ) == q
  | .int m, .int n => m == n
  | .int m, .bool b => m == (if b then (1 : ℤ) else 0)
  | .bool a, .float q => (if a then (1 : ℚ) else 0) == q
  | .bool a, .int n => (if a then (1 : ℤ) else 0) == n
  | .bool a, .bool b => a == b

/-- str(x) for a scalar, as used when formatting the dtype name: str(nan) is
"nan", str(NaT) is "NaT", bools print capitalised, ints in decimal, and a
float with no fractional part prints with a trailing ".0". -/
def str_of_scalar : Scalar → String
  | .nan => "nan"
  | .NaT => "NaT"
  | .bool b => if b then "True" else "False"
  | .int n => toString n
  | .float q => if q.den = 1 then toString q.num ++ ".0" else toString q

/-- Modelled from the spec: the Python hash of a scalar (used by the
structural hash of the metadata tuple, which lives outside src/).  Equal
numbers hash equal across kinds, hash(nan) = 0 = hash(0), hash(False) = 0,
hash(True) = 1; NaT hashes to a runtime value distinct from every numeric
hash, modelled by none.  A non-integral float is injected deterministically. -/
def scalarHash : Scalar → Option ℤ
  | .nan => some 0
  | .NaT => none
  | .bool b => some (if b then 1 else 0)
  | .int n => some n
  | .float q => if q.den = 1 then some q.num else some (q.num * 2305843009213693951 + (q.den : ℤ))

/-- The numpy dtypes that appear as SparseDtype subtypes in this development. -/
inductive NpDtype
  | float64
  | int64
  | bool
  | object
  | datetime64ns
  | timedelta64ns
deriving DecidableEq, Repr

/-- dtype.name for each modelled numpy dtype. -/
def NpDtype.name : NpDtype → String
  | .float64 => "float64"
  | .int64 => "int64"
  | .bool => "bool"
  | .object => "object"
  | .datetime64ns => "datetime64[ns]"
  | .timedelta64ns => "timedelta64[ns]"

/-- Modelled from the spec: the external default fill value rule
(na_value_for_dtype): float maps to nan, integer to 0, bool to False,
datetime and timedelta to NaT, and object to nan. -/
def na_value_for_dtype : NpDtype → Scalar
  | .float64 => .nan
  | .int64 => .int 0
  | .bool => .bool false
  | .object => .nan
  | .datetime64ns => .NaT
  | .timedelta64ns => .NaT

/-- Modelled from the spec: the external canonical type-descriptor registry
(pandas_dtype on a string), restricted to the modelled dtypes, with the
common aliases.  The string-kind collapse to object that SparseDtype applies
via is_string_dtype is folded in here (the str and string names).  An
unrecognised name raises, modelled by none. -/
def pandas_dtype : String → Option NpDtype
  | "float64" => some .float64
  | "float" => some .float64
  | "f8" => some .float64
  | "double" => some .float64
  | "int64" => some .int64
  | "int" => some .int64
  | "i8" => some .int64
  | "bool" => some .bool
  | "b1" => some .bool
  | "object" => some .object
  | "O" => some .object
  | "datetime64[ns]" => some .datetime64ns
  | "M8[ns]" => some .datetime64ns
  | "timedelta64[ns]" => some .timedelta64ns
  | "m8[ns]" => some .timedelta64ns
  | "str" => some .object
  | "string" => some .object
  | _ => none

/-- SparseDtype, holding the canonical subtype and the resolved fill value
(dtype.py lines 85 to 86: self._dtype and self._fill_value). -/
structure SparseDtype where
  _dtype : NpDtype
  _fill_value : Scalar
deriving DecidableEq, Repr

/-- The subtype property (dtype.py line 162). -/
def SparseDtype.subtype (self : SparseDtype) : NpDtype :=
  self._dtype

/-- The fill_value property (dtype.py line 135). -/
def SparseDtype.fill_value (self : SparseDtype) : Scalar :=
  self._fill_value

/-- The _is_na_fill_value property: isna of the fill value (dtype.py line 139). -/
def SparseDtype._is_na_fill_value (self : SparseDtype) : Bool :=
  isna self.fill_value

/-- SparseDtype(subtype_string) with no fill value given: resolve the string
through pandas_dtype and take the default fill value for the subtype
(dtype.py lines 74 to 79). -/
def SparseDtype.of_subtype (st : NpDtype) : SparseDtype :=
  ⟨st, na_value_for_dtype st⟩

/-- The display name "Sparse[subtype.name, fill_value]" (dtype.py line 166);
str and repr of a SparseDtype both produce this string. -/
def SparseDtype.name (self : SparseDtype) : String :=
  "Sparse[" ++ self.subtype.name ++ ", " ++ str_of_scalar self.fill_value ++ "]"

/-- _parse_subtype (dtype.py lines 225 to 257).  The regular expression
Sparse\[([^,]*)(, )?(.*?)\]$ matched against the string: a match needs the
prefix Sparse[ and the suffix ]; the subtype group is the longest comma-free
prefix of the bracket contents, the optional literal ", " follows if present,
and the lazy fill_value group takes the rest.  has_fill_value is the
truthiness of the fill_value group.  The bare string "Sparse" yields the
float64 subtype.  Anything else raises ValueError, modelled by none. -/
def SparseDtype._parse_subtype (dtype : String) : Option (String × Bool) :=
  let cs := dtype.data
  if ("Sparse[".data).isPrefixOf cs && cs.getLast? == some ']' && decide (8 ≤ cs.length) then
    let inner := (cs.drop 7).dropLast
    let subtype := inner.takeWhile (fun c => c != ',')
    let rest := inner.drop subtype.length
    let fill_value := if (", ".data).isPrefixOf rest then rest.drop 2 else rest
    some (String.mk subtype, fill_value != [])
  else if dtype == "Sparse" then
    some ("float64", false)
  else
    none

/-- construct_from_string (dtype.py lines 177 to 223).  The string must start
with "Sparse"; the subtype text is extracted by _parse_subtype and resolved
by pandas_dtype (either failure raises TypeError, tagged parseError); the
result is the SparseDtype with that subtype and its default fill value; if a
fill-value text was present and str(result) differs from the whole input
string, TypeError is raised (tagged unsupportedFillValue). -/
def construct_from_string (string : String) : Except PdError SparseDtype :=
  if ("Sparse".data).isPrefixOf string.data then
    match SparseDtype._parse_subtype string with
    | none => .error .parseError
    | some (sub_type, has_fill_value) =>
      match pandas_dtype sub_type with
      | none => .error .parseError
      | some st =>
        let result := SparseDtype.of_subtype st
        if has_fill_value && !(result.name == string) then
          .error .unsupportedFillValue
        else
          .ok result
  else
    .error .parseError

/-- The body of SparseDtype.__eq__ on the branch where other is a SparseDtype
(dtype.py lines 102 to 118), translated literally.  Note the grouping of the
NA branch: Python parses A and B or C as (A and B) or C, so the condition is
(other._is_na_fill_value and isinstance(self.fill_value, type(other.fill_value)))
or isinstance(other.fill_value, type(self.fill_value)). -/
def SparseDtype.eqSparse (self other : SparseDtype) : Bool :=
  let subtype := self.subtype == other.subtype
  let fill_value :=
    if self._is_na_fill_value then
      (other._is_na_fill_value && isinstance self.fill_value other.fill_value.pytype)
        || isinstance other.fill_value self.fill_value.pytype
    else
      pyEq self.fill_value other.fill_value
  subtype && fill_value

/-- The argument of SparseDtype.__eq__: a SparseDtype, a string, or any
other object. -/
inductive EqOther
  | dtype (d : SparseDtype)
  | str (s : String)
  | other
deriving Repr

/-- SparseDtype.__eq__ (dtype.py lines 93 to 119): a string argument is first
parsed by construct_from_string, and a parse failure returns False; a
SparseDtype argument goes to eqSparse; any other argument gives False. -/
def SparseDtype.eq (self : SparseDtype) (o : EqOther) : Bool :=
  match o with
  | .str s =>
    match construct_from_string s with
    | .error _ => false
    | .ok d => self.eqSparse d
  | .dtype d => self.eqSparse d
  | .other => false

/-- Modelled from the spec: SparseDtype.__hash__ defers to the ExtensionDtype
structural hash (outside src/), which hashes the _metadata tuple
(subtype, fill_value, is_na_fill_value); the model keeps the subtype, the
Python-level hash of the fill value, and the NA flag, so two dtypes hash
equal exactly when these three components agree. -/
def SparseDtype.hashKey (self : SparseDtype) : NpDtype × Option ℤ × Bool :=
  (self._dtype, scalarHash self._fill_value, self._is_na_fill_value)

/-- The equality rule as the spec words it (sections 3 and 8, quoted by the
claims): subtypes equal AND (both fill values are missing sentinels of
compatible scalar kinds, each type compatible with the other, OR the fill
values compare equal by value).  Declared only to be compared with the
source translation eqSparse. -/
def specEqSparse (a b : SparseDtype) : Bool :=
  (a.subtype == b.subtype)
    && ((isna a.fill_value && isna b.fill_value
          && (isinstance a.fill_value b.fill_value.pytype
              || isinstance b.fill_value a.fill_value.pytype))
        || pyEq a.fill_value b.fill_value)

/-- Modelled from the spec: the external type-safe cast (astype_nansafe)
applied to a single scalar.  Casts between the numeric kinds convert by
value (float to int truncates toward zero); nan into the integer or bool
story follows numpy (nan to int raises on the non-finite check, nan to bool
is True); NaT converts only to datetime-like or object targets; conversions
the spec does not describe are conservatively rejected. -/
def astype_nansafe (v : Scalar) (t : NpDtype) : Except PdError Scalar :=
  match t, v with
  | .float64, .float q => .ok (.float q)
  | .float64, .nan => .ok .nan
  | .float64, .int n => .ok (.float (n : ℚ))
  | .float64, .bool b => .ok (.float (if b then 1 else 0))
  | .float64, .NaT => .error .incompatibleFillValue
  | .int64, .float q => .ok (.int (q.num.tdiv (q.den : ℤ)))
  | .int64, .nan => .error .incompatibleFillValue
  | .int64, .int n => .ok (.int n)
  | .int64, .bool b => .ok (.int (if b then 1 else 0))
  | .int64, .NaT => .error .incompatibleFillValue
  | .bool, .float q => .ok (.bool (q != 0))
  | .bool, .nan => .ok (.bool true)
  | .bool, .int n => .ok (.bool (n != 0))
  | .bool, .bool b => .ok (.bool b)
  | .bool, .NaT => .error .incompatibleFillValue
  | .object, w => .ok w
  | .datetime64ns, .NaT => .ok .NaT
  | .datetime64ns, _ => .error .incompatibleFillValue
  | .timedelta64ns, .NaT => .ok .NaT
  | .timedelta64ns, _ => .error .incompatibleFillValue

/-- The argument of update_dtype after pandas_dtype normalisation: either a
plain (non-sparse) dtype or a full SparseDtype. -/
inductive DtypeParam
  | dt (t : NpDtype)
  | sp (s : SparseDtype)
deriving Repr

/-- update_dtype (dtype.py lines 269 to 314): a SparseDtype argument is
returned unchanged; for a plain dtype the current fill value is cast by
astype_nansafe (a cast failure propagates) and a SparseDtype with the new
subtype and the cast fill value is built. -/
def SparseDtype.update_dtype (self : SparseDtype) (p : DtypeParam) : Except PdError SparseDtype :=
  match p with
  | .sp s => .ok s
  | .dt t =>
    match astype_nansafe self.fill_value t with
    | .error e => .error e
    | .ok fill_value => .ok ⟨t, fill_value⟩

/-- FrozenList (frozen.py line 21): an immutable wrapper over a Python list,
modelled by its element sequence. -/
structure FrozenList (α : Type) where
  toList : List α
deriving DecidableEq, Repr

/-- union (frozen.py lines 31 to 47): a new FrozenList holding the
concatenation of the elements of self and other, built by the inherited
list __add__; a tuple argument is first converted to a list, so the
argument is modelled as the list of its elements. -/
def FrozenList.union {α : Type} (self : FrozenList α) (other : List α) : FrozenList α :=
  ⟨self.toList ++ other⟩

/-- difference (frozen.py lines 49 to 65): other is converted to a set and
the comprehension keeps the elements of self not contained in it, in order.
The set conversion is modelled by dedup, membership by contains. -/
def FrozenList.difference {α : Type} [DecidableEq α] (self : FrozenList α) (other : List α) :
    FrozenList α :=
  let otherSet := other.dedup
  ⟨self.toList.filter (fun x => !(otherSet.contains x))⟩

/-- The aliases on frozen.py line 68: __add__ = __iadd__ = union.  A
statement x += other therefore evaluates x.__iadd__(other), which is union:
it returns a fresh FrozenList and raises nothing; the variable is rebound to
the result while the original object keeps its elements. -/
def FrozenList.iadd {α : Type} (self : FrozenList α) (other : List α) : FrozenList α :=
  FrozenList.union self other

/-- __mul__ (frozen.py lines 87 to 88): the inherited list repetition wrapped
back into a FrozenList.  Python list repetition with a non-positive count
gives the empty list, hence the toNat. -/
def FrozenList.mul {α : Type} (self : FrozenList α) (n : ℤ) : FrozenList α :=
  ⟨(List.replicate n.toNat self.toList).flatten⟩

/-- The alias on frozen.py line 90: __imul__ = __mul__.  A statement x *= n
evaluates x.__imul__(n), which is __mul__: the pair holds the value returned
(and rebound to x) and the original object after the call, which __mul__
leaves untouched.  No error is raised. -/
def FrozenList.imul {α : Type} (self : FrozenList α) (n : ℤ) :
    Except PdError (FrozenList α) × FrozenList α :=
  (Except.ok (FrozenList.mul self n), self)

/-- _disabled (frozen.py lines 98 to 104): raises TypeError (the
ImmutableContainer error of the spec) before touching the list, so the pair
holds the raised error and the unchanged object. -/
def FrozenList._disabled {α : Type} (self : FrozenList α) :
    Except PdError Unit × FrozenList α :=
  (Except.error PdError.immutableContainer, self)

/-- append = _disabled (frozen.py line 113). -/
def FrozenList.append {α : Type} (self : FrozenList α) (_ : α) :
    Except PdError Unit × FrozenList α :=
  FrozenList._disabled self

/-- insert = _disabled (frozen.py line 113). -/
def FrozenList.insert {α : Type} (self : FrozenList α) (_ : ℤ) (_ : α) :
    Except PdError Unit × FrozenList α :=
  FrozenList._disabled self

/-- remove = _disabled (frozen.py line 113). -/
def FrozenList.remove {α : Type} (self : FrozenList α) (_ : α) :
    Except PdError Unit × FrozenList α :=
  FrozenList._disabled self

/-- sort = _disabled (frozen.py line 113). -/
def FrozenList.sort {α : Type} (self : FrozenList α) :
    Except PdError Unit × FrozenList α :=
  FrozenList._disabled self

/-- pop = _disabled (frozen.py line 113). -/
def FrozenList.pop {α : Type} (self : FrozenList α) :
    Except PdError Unit × FrozenList α :=
  FrozenList._disabled self

/-- extend = _disabled (frozen.py line 113). -/
def FrozenList.extend {α : Type} (self : FrozenList α) (_ : List α) :
    Except PdError Unit × FrozenList α :=
  FrozenList._disabled self

/-- __setitem__ = _disabled (frozen.py line 112): element assignment. -/
def FrozenList.setitem {α : Type} (self : FrozenList α) (_ : ℤ) (_ : α) :
    Except PdError Unit × FrozenList α :=
  FrozenList._disabled self

/-- __delitem__ = _disabled (frozen.py line 112): element deletion. -/
def FrozenList.delitem {α : Type} (self : FrozenList α) (_ : ℤ) :
    Except PdError Unit × FrozenList α :=
  FrozenList._disabled self

/-- Helper: the source equality is reflexive on every modelled SparseDtype:
an NA fill value falls into the NA branch, where isinstance of the fill
value against its own type holds, and a non-NA fill value compares equal to
itself by value. -/
theorem SparseDtype.eqSparse_self (d : SparseDtype) : d.eqSparse d = true := by
  obtain ⟨st, fv⟩ := d
  cases fv <;>
    simp [SparseDtype.eqSparse, SparseDtype._is_na_fill_value, SparseDtype.fill_value,
      SparseDtype.subtype, isna, pyEq, isinstance, Scalar.pytype]

/-- Helper: for every modelled subtype, the canonical name of the SparseDtype
carrying the default fill value parses back to exactly that SparseDtype. -/
theorem construct_from_string_name_default (st : NpDtype) :
    construct_from_string (SparseDtype.name ⟨st, na_value_for_dtype st⟩)
      = Except.ok ⟨st, na_value_for_dtype st⟩ := by
  cases st <;> decide

/-- C1: the claimed equality rule fails on the code.  At
a = SparseDtype(float64, nan) and b = SparseDtype(float64, 0.0) the source
eq returns True although the fill values are neither both NA sentinels nor
equal by value, so the claimed rule (specEqSparse) gives False: the NA
branch of dtype.py lines 110 to 114 groups by Python precedence as
(other_is_na and isinstance(self_fill, type(other_fill))) or
isinstance(other_fill, type(self_fill)), and the second disjunct fires.
The two worked examples of the claim do hold on the code. -/
theorem sparse_eq_na_precedence_divergence :
    SparseDtype.eqSparse ⟨NpDtype.float64, Scalar.nan⟩ ⟨NpDtype.float64, Scalar.float 0⟩ = true
  ∧ specEqSparse ⟨NpDtype.float64, Scalar.nan⟩ ⟨NpDtype.float64, Scalar.float 0⟩ = false
  ∧ SparseDtype.eqSparse ⟨NpDtype.float64, Scalar.nan⟩ ⟨NpDtype.float64, Scalar.nan⟩ = true
  ∧ SparseDtype.eqSparse ⟨NpDtype.float64, Scalar.nan⟩ ⟨NpDtype.datetime64ns, Scalar.NaT⟩
      = false := by
  decide

/-- C2: hashing is not consistent with the source equality: the pair of C1
compares equal under the source eq, yet the metadata triples
(subtype, fill_value hash, is_na_fill_value) feeding the structural hash
differ in the NA flag, so the hashes differ and the claimed implication
fails at this pair. -/
theorem sparse_hash_inconsistent_with_eq :
    SparseDtype.eqSparse ⟨NpDtype.float64, Scalar.nan⟩ ⟨NpDtype.float64, Scalar.float 0⟩ = true
  ∧ SparseDtype.hashKey ⟨NpDtype.float64, Scalar.nan⟩
      ≠ SparseDtype.hashKey ⟨NpDtype.float64, Scalar.float 0⟩ := by
  decide

/-- C3: round-trip law: whenever the fill value of a SparseDtype is the
canonical default for its subtype, construct_from_string applied to its name
returns exactly that SparseDtype, and the source equality relates the
parsed result to the original (by reflexivity of eqSparse, which covers the
Python-level comparison from_string(d.name) == d). -/
theorem sparse_name_roundtrip_default (d : SparseDtype)
    (h : d._fill_value = na_value_for_dtype d._dtype) :
    construct_from_string (SparseDtype.name d) = Except.ok d
  ∧ SparseDtype.eq d (EqOther.dtype d) = true := by
  obtain ⟨st, fv⟩ := d
  dsimp only at h
  subst h
  exact ⟨construct_from_string_name_default st, SparseDtype.eqSparse_self _⟩

/-- Witness for C3 at the concrete dtype SparseDtype(float64, nan). -/
theorem sparse_name_roundtrip_default_witness :
    construct_from_string (SparseDtype.name ⟨NpDtype.float64, Scalar.nan⟩)
      = Except.ok ⟨NpDtype.float64, Scalar.nan⟩
  ∧ SparseDtype.eq ⟨NpDtype.float64, Scalar.nan⟩
      (EqOther.dtype ⟨NpDtype.float64, Scalar.nan⟩) = true :=
  sparse_name_roundtrip_default ⟨NpDtype.float64, Scalar.nan⟩ rfl

/-- C4: the claim fails on the code.  For "Sparse[int, 0]" the default fill
value for the parsed subtype int64 formats to exactly the given fill text
"0", so the claim (and the docstring table of construct_from_string,
dtype.py line 192) says parsing succeeds; the code instead compares the
whole canonical name "Sparse[int64, 0]" against the input and raises the
UnsupportedFillValue TypeError because the subtype was written with the
alias "int".  The example of the claim, "Sparse[int64, 1]", does fail as
stated, and the fully canonical "Sparse[int64, 0]" succeeds. -/
theorem construct_from_string_whole_name_check :
    construct_from_string "Sparse[int, 0]" = Except.error PdError.unsupportedFillValue
  ∧ pandas_dtype "int" = some NpDtype.int64
  ∧ str_of_scalar (na_value_for_dtype NpDtype.int64) = "0"
  ∧ construct_from_string "Sparse[int64, 1]" = Except.error PdError.unsupportedFillValue
  ∧ construct_from_string "Sparse[int64, 0]" = Except.ok ⟨NpDtype.int64, Scalar.int 0⟩ := by
  decide

/-- C5 (amended): append, insert, remove, sort, pop, extend, element
assignment and element deletion all raise the ImmutableContainer error and
leave the element sequence unchanged; non-in-place repetition builds a new
FrozenList with the elements repeated n times in order; in-place repetition
does NOT raise: x *= n rebinds x to the same new FrozenList that x * n
builds and leaves the original object unchanged. -/
theorem frozenlist_mutation_contract (α : Type) (s : FrozenList α) (x : α) (i : ℤ)
    (ys : List α) (n : ℤ) :
    s.append x = (Except.error PdError.immutableContainer, s)
  ∧ s.insert i x = (Except.error PdError.immutableContainer, s)
  ∧ s.remove x = (Except.error PdError.immutableContainer, s)
  ∧ s.sort = (Except.error PdError.immutableContainer, s)
  ∧ s.pop = (Except.error PdError.immutableContainer, s)
  ∧ s.extend ys = (Except.error PdError.immutableContainer, s)
  ∧ s.setitem i x = (Except.error PdError.immutableContainer, s)
  ∧ s.delitem i = (Except.error PdError.immutableContainer, s)
  ∧ s.imul n = (Except.ok (s.mul n), s)
  ∧ (s.mul n).toList = (List.replicate n.toNat s.toList).flatten :=
  ⟨rfl, rfl, rfl, rfl, rfl, rfl, rfl, rfl, rfl, rfl⟩

/-- C5 counterexample: in-place repetition on FrozenList([1, 2]) with n = 2
does not raise ImmutableContainer: it returns the new FrozenList([1, 2, 1, 2])
to which the repeated variable is rebound, and the original object keeps its
elements. -/
theorem frozenlist_imul_no_error :
    FrozenList.imul (FrozenList.mk ([1, 2] : List ℕ)) 2
      = (Except.ok (FrozenList.mk [1, 2, 1, 2]), FrozenList.mk [1, 2]) := by
  decide

/-- C6: union returns a new FrozenList whose elements are the elements of
self followed by the elements of other, in order (in particular its length
is the sum of the two lengths); union reads self and builds a fresh list, so
the element sequence of self is unchanged; the worked example of the claim
holds. -/
theorem frozenlist_union_concat (α : Type) (s : FrozenList α) (other : List α) :
    (s.union other).toList = s.toList ++ other
  ∧ (s.union other).toList.length = s.toList.length + other.length
  ∧ FrozenList.union (FrozenList.mk ([1, 2] : List ℕ)) [3, 4]
      = FrozenList.mk [1, 2, 3, 4] := by
  refine ⟨rfl, ?_, by decide⟩
  simp [FrozenList.union]

/-- C7: difference keeps exactly the elements of self that are not equal to
any element of other, in the original order (a filter of the element
sequence by non-membership); duplicates in other are irrelevant because
membership in the set built from other is plain membership in other; the
worked example of the claim holds, also with duplicates in other. -/
theorem frozenlist_difference_excludes (α : Type) [DecidableEq α] (s : FrozenList α)
    (other : List α) :
    (s.difference other).toList = s.toList.filter (fun a => decide (¬ a ∈ other))
  ∧ FrozenList.difference (FrozenList.mk ([1, 2, 3] : List ℕ)) [2] = FrozenList.mk [1, 3]
  ∧ FrozenList.difference (FrozenList.mk ([1, 2, 3] : List ℕ)) [2, 2, 5]
      = FrozenList.mk [1, 3] := by
  refine ⟨?_, by decide, by decide⟩
  have hdef : (s.difference other).toList
      = s.toList.filter (fun a => !((other.dedup).contains a)) := rfl
  rw [hdef]
  apply List.filter_congr
  intro a _
  simp [List.elem_iff, List.mem_dedup]

/-- C8: for a plain (non-sparse) target dtype, update_dtype returns the new
SparseDtype with that subtype and the current fill value converted by the
external cast, whenever the cast yields a value (a cast failure propagates
the error); for a SparseDtype argument the argument itself is returned with
no fill-value derivation. -/
theorem update_dtype_spec :
    (∀ (d : SparseDtype) (t : NpDtype) (v : Scalar),
        astype_nansafe d.fill_value t = Except.ok v →
        d.update_dtype (DtypeParam.dt t) = Except.ok ⟨t, v⟩)
  ∧ (∀ (d s : SparseDtype), d.update_dtype (DtypeParam.sp s) = Except.ok s) := by
  constructor
  · intro d t v h
    simp [SparseDtype.update_dtype, h]
  · intro d s
    rfl

/-- Witness for C8: SparseDtype(int64, 0).update_dtype(float64) yields
SparseDtype(float64, 0.0), and a SparseDtype argument is returned
unchanged. -/
theorem update_dtype_spec_witness :
    SparseDtype.update_dtype ⟨NpDtype.int64, Scalar.int 0⟩ (DtypeParam.dt NpDtype.float64)
      = Except.ok ⟨NpDtype.float64, Scalar.float 0⟩
  ∧ SparseDtype.update_dtype ⟨NpDtype.int64, Scalar.int 0⟩
      (DtypeParam.sp ⟨NpDtype.float64, Scalar.nan⟩)
      = Except.ok ⟨NpDtype.float64, Scalar.nan⟩ :=
  ⟨update_dtype_spec.1 ⟨NpDtype.int64, Scalar.int 0⟩ NpDtype.float64 (Scalar.float 0)
      (by decide),
   update_dtype_spec.2 ⟨NpDtype.int64, Scalar.int 0⟩ ⟨NpDtype.float64, Scalar.nan⟩⟩

/-- C9: comparing a SparseDtype against a string parses the string with
construct_from_string and compares the result, so a dtype whose fill value
is the default for its subtype compares equal to its own name; and a string
that fails to parse makes the comparison return False instead of
propagating the error. -/
theorem sparse_eq_string_semantics :
    (∀ d : SparseDtype, d._fill_value = na_value_for_dtype d._dtype →
        SparseDtype.eq d (EqOther.str (SparseDtype.name d)) = true)
  ∧ (∀ (d : SparseDtype) (s : String) (e : PdError),
        construct_from_string s = Except.error e →
        SparseDtype.eq d (EqOther.str s) = false) := by
  constructor
  · intro d h
    obtain ⟨st, fv⟩ := d
    dsimp only at h
    subst h
    simp [SparseDtype.eq, construct_from_string_name_default st, SparseDtype.eqSparse_self]
  · intro d s e h
    simp [SparseDtype.eq, h]

/-- Witness for C9: SparseDtype(int64, 0) compares equal to its own name
"Sparse[int64, 0]", and the comparison against an unparseable string
returns False. -/
theorem sparse_eq_string_semantics_witness :
    SparseDtype.eq ⟨NpDtype.int64, Scalar.int 0⟩ (EqOther.str "Sparse[int64, 0]") = true
  ∧ SparseDtype.eq ⟨NpDtype.int64, Scalar.int 0⟩ (EqOther.str "not a dtype") = false := by
  constructor
  · exact sparse_eq_string_semantics.1 ⟨NpDtype.int64, Scalar.int 0⟩ rfl
  · exact sparse_eq_string_semantics.2 ⟨NpDtype.int64, Scalar.int 0⟩ "not a dtype"
      PdError.parseError (by decide)

/-- C10: x += other evaluates, through the alias on frozen.py line 68, the
very union method, so it raises nothing: the result is the new FrozenList
with the elements of x followed by the elements of other, the variable is
rebound to it, and the element sequence of the original is unchanged (iadd
reads self and builds a fresh list); the concatenation example holds. -/
theorem frozenlist_iadd_acts_as_union (α : Type) (s : FrozenList α) (other : List α) :
    s.iadd other = s.union other
  ∧ (s.iadd other).toList = s.toList ++ other
  ∧ FrozenList.iadd (FrozenList.mk ([1, 2] : List ℕ)) [3, 4] = FrozenList.mk [1, 2, 3, 4] :=
  ⟨rfl, rfl, by decide⟩
